import Mathlib

/-
Verification of the coupon CRUD service (cupom-api-actix-mysql-rust).

The service layer is embedded directly from src/coupon/coupon_service.rs.
The persistence accessor (coupon_repository) and the row-to-API conversion
(the TryInto impl in the model module) are not among the provided sources;
they are modelled from the specification, sections 4.1 and 4.2, as noted on
each such definition.

The database is modelled as an explicit state: the coupon table (a list of
rows), a fault script driving lower-layer persistence failures (the n-th
repository call fails when the n-th script entry is true; an exhausted
script means no failure), and a counter of write statements issued, so that
claims about the number of writes are observable.  Every repository call is
fallible, mirroring the sqlx calls in the Rust source.
-/

namespace CouponApi

/-- Modelled from the spec, section 3: the stored coupon entity has an
identifier, a code, a discount, a max usage count and a creation timestamp
(the model module holding the Rust struct is not among the sources). -/
structure CouponRow where
  id : Int
  code : String
  discount : Int
  max_usage_count : Int
  date_created : Option Nat
  deriving DecidableEq

/-- Modelled from the spec: the API-facing representation of a coupon
produced by the domain conversion layer. -/
structure CouponResponse where
  id : Int
  code : String
  discount : Int
  max_usage_count : Int
  date_created : Option Nat
  deriving DecidableEq

/-- Modelled from the spec: an insert request body carries code, discount
and max usage count. -/
structure CouponRequest where
  code : String
  discount : Int
  max_usage_count : Int
  deriving DecidableEq

/-- Modelled from the spec: the record handed to the persistence accessor
insert; the service sets date_created to none (the Rust source has a TODO
for the date_added field). -/
structure CouponInsert where
  code : String
  discount : Int
  max_usage_count : Int
  date_created : Option Nat
  deriving DecidableEq

/-- Modelled from the spec: an update request carries the target id and the
replacement code, discount and max usage count. -/
structure CouponUpdate where
  id : Int
  code : String
  discount : Int
  max_usage_count : Int
  deriving DecidableEq

/-- The error taxonomy surfaced by the service layer, from
src/coupon/coupon_service.rs together with spec section 4.3: NotFoundError
(named key), InternalError (conversion failure), UnexpectedError (any
lower-layer failure).  Each carries its message. -/
inductive CouponError where
  | NotFoundError (msg : String)
  | InternalError (msg : String)
  | UnexpectedError (msg : String)
  deriving DecidableEq

/-- A lower-layer (database/transport) failure, distinct from a missing
row. -/
inductive DbError where
  | failure
  deriving DecidableEq

/-- Modelled from the spec, section 4.2: conversion of the stored numeric
discount fails when the value cannot be represented in the target numeric
domain (overflow or precision loss); the representable range is modelled as
the integers of magnitude at most 2 ^ 53. -/
def discountRepresentable (d : Int) : Bool := d.natAbs ≤ 2 ^ 53

/-- Modelled from the spec, section 4.2: the domain conversion layer maps a
stored row into the API-facing representation, failing (none) when the
discount is not representable; this is the try_into used by the service. -/
def tryInto (r : CouponRow) : Option CouponResponse :=
  if discountRepresentable r.discount then
    some { id := r.id, code := r.code, discount := r.discount,
           max_usage_count := r.max_usage_count, date_created := r.date_created }
  else none

/-- The database state seen through the connection pool: the stored table,
the fault script, and the count of write statements issued so far. -/
structure DB where
  table : List CouponRow
  faults : List Bool
  writes : Nat
  deriving DecidableEq

/-- Consume the next fault-script entry; an exhausted script yields false
(no failure). -/
def DB.pop (db : DB) : Bool × DB :=
  match db.faults with
  | [] => (false, db)
  | f :: rest => (f, { db with faults := rest })

namespace coupon_repository

/-- Modelled from the spec, section 4.1: list-all returns all rows. -/
def get_all (db : DB) : Except DbError (List CouponRow) × DB :=
  let p := db.pop
  if p.1 then (Except.error DbError.failure, p.2)
  else (Except.ok p.2.table, p.2)

/-- Modelled from the spec, section 4.1: get-by-id returns zero-or-one row,
distinguishing the no-row case from a database failure. -/
def get_by_id (id : Int) (db : DB) : Except DbError (Option CouponRow) × DB :=
  let p := db.pop
  if p.1 then (Except.error DbError.failure, p.2)
  else (Except.ok (p.2.table.find? (fun r => r.id == id)), p.2)

/-- Modelled from the spec, section 4.1: get-by-code returns zero-or-one
row, distinguishing the no-row case from a database failure. -/
def get_by_code (code : String) (db : DB) : Except DbError (Option CouponRow) × DB :=
  let p := db.pop
  if p.1 then (Except.error DbError.failure, p.2)
  else (Except.ok (p.2.table.find? (fun r => r.code == code)), p.2)

/-- Modelled from the spec, section 4.1: the identifier the database
generates for a new row is fresh, here one more than the largest identifier
stored. -/
def freshId (t : List CouponRow) : Int :=
  (t.map (fun r => r.id)).foldr max 0 + 1

/-- Modelled from the spec, section 4.1: insert assigns a fresh identifier,
stores the row, and returns the new identifier; one write statement. -/
def insert (c : CouponInsert) (db : DB) : Except DbError Int × DB :=
  let p := db.pop
  if p.1 then (Except.error DbError.failure, p.2)
  else
    (Except.ok (freshId p.2.table),
     { p.2 with
        table := p.2.table ++
          [{ id := freshId p.2.table, code := c.code, discount := c.discount,
             max_usage_count := c.max_usage_count, date_created := c.date_created }],
        writes := p.2.writes + 1 })

/-- Modelled from the spec, section 4.1: update replaces code, discount and
max usage count of the row with the matching identifier; one write
statement. -/
def update (u : CouponUpdate) (db : DB) : Except DbError Unit × DB :=
  let p := db.pop
  if p.1 then (Except.error DbError.failure, p.2)
  else
    (Except.ok (),
     { p.2 with
        table := p.2.table.map (fun r =>
          if r.id == u.id then
            { id := u.id, code := u.code, discount := u.discount,
              max_usage_count := u.max_usage_count, date_created := r.date_created }
          else r),
        writes := p.2.writes + 1 })

/-- Modelled from the spec, section 4.1: delete-by-id removes the rows with
the matching identifier; one write statement (even when it matches zero
rows). -/
def delete_by_id (id : Int) (db : DB) : Except DbError Unit × DB :=
  let p := db.pop
  if p.1 then (Except.error DbError.failure, p.2)
  else
    (Except.ok (),
     { p.2 with table := p.2.table.filter (fun r => !(r.id == id)),
                writes := p.2.writes + 1 })

/-- Modelled from the spec, section 4.1: delete-by-code removes the rows
with the matching code; one write statement (even when it matches zero
rows). -/
def delete_by_code (code : String) (db : DB) : Except DbError Unit × DB :=
  let p := db.pop
  if p.1 then (Except.error DbError.failure, p.2)
  else
    (Except.ok (),
     { p.2 with table := p.2.table.filter (fun r => !(r.code == code)),
                writes := p.2.writes + 1 })

end coupon_repository

namespace coupon_service

/-- From src/coupon/coupon_service.rs, get_all: fetch all rows (database
failure becomes UnexpectedError) and flat_map the fallible conversion,
which skips the rows whose conversion fails. -/
def get_all (db : DB) : Except CouponError (List CouponResponse) × DB :=
  match coupon_repository.get_all db with
  | (Except.error _, db) =>
      (Except.error (CouponError.UnexpectedError "Failed to get all"), db)
  | (Except.ok coupons, db) =>
      (Except.ok (coupons.filterMap tryInto), db)

/-- From src/coupon/coupon_service.rs, get_by_id: database failure becomes
UnexpectedError, a missing row becomes NotFoundError naming the id, a
conversion failure becomes InternalError. -/
def get_by_id (id : Int) (db : DB) : Except CouponError CouponResponse × DB :=
  match coupon_repository.get_by_id id db with
  | (Except.error _, db) =>
      (Except.error (CouponError.UnexpectedError "Failed to get by id"), db)
  | (Except.ok none, db) =>
      (Except.error (CouponError.NotFoundError
        ("Coupon with id `" ++ toString id ++ "` not found")), db)
  | (Except.ok (some coupon), db) =>
      match tryInto coupon with
      | none => (Except.error (CouponError.InternalError "Failed to try_into"), db)
      | some resp => (Except.ok resp, db)

/-- From src/coupon/coupon_service.rs, get_by_code: database failure becomes
UnexpectedError, a missing row becomes NotFoundError naming the code, a
conversion failure becomes InternalError. -/
def get_by_code (code : String) (db : DB) : Except CouponError CouponResponse × DB :=
  match coupon_repository.get_by_code code db with
  | (Except.error _, db) =>
      (Except.error (CouponError.UnexpectedError "Failed to get by code"), db)
  | (Except.ok none, db) =>
      (Except.error (CouponError.NotFoundError
        ("Coupon with code `" ++ code ++ "` not found")), db)
  | (Except.ok (some coupon), db) =>
      match tryInto coupon with
      | none => (Except.error (CouponError.InternalError "Failed to try_into"), db)
      | some resp => (Except.ok resp, db)

/-- From src/coupon/coupon_service.rs, insert: build the CouponInsert from
the request (date_created none), persist it, re-fetch the row by the
returned identifier, and convert it; repository failures become
UnexpectedError, a missing re-fetch becomes NotFoundError naming the new
id, a conversion failure becomes InternalError. -/
def insert (coupon : CouponRequest) (db : DB) : Except CouponError CouponResponse × DB :=
  let coupon_insert : CouponInsert :=
    { code := coupon.code, discount := coupon.discount,
      max_usage_count := coupon.max_usage_count, date_created := none }
  match coupon_repository.insert coupon_insert db with
  | (Except.error _, db) =>
      (Except.error (CouponError.UnexpectedError "Failed to insert"), db)
  | (Except.ok inserted_id, db) =>
    match coupon_repository.get_by_id inserted_id db with
    | (Except.error _, db) =>
        (Except.error (CouponError.UnexpectedError "Failed to get by id"), db)
    | (Except.ok none, db) =>
        (Except.error (CouponError.NotFoundError
          ("Inserted coupon with id `" ++ toString inserted_id ++ "` not found")), db)
    | (Except.ok (some c), db) =>
        match tryInto c with
        | none => (Except.error (CouponError.InternalError "Failed to try_into"), db)
        | some resp => (Except.ok resp, db)

/-- From src/coupon/coupon_service.rs, update: pre-check existence via
get_by_id (database failure becomes UnexpectedError, a miss becomes
NotFoundError naming the id), then issue the single repository update. -/
def update (coupon : CouponUpdate) (db : DB) : Except CouponError Unit × DB :=
  match coupon_repository.get_by_id coupon.id db with
  | (Except.error _, db) =>
      (Except.error (CouponError.UnexpectedError "Failed to get by id"), db)
  | (Except.ok none, db) =>
      (Except.error (CouponError.NotFoundError
        ("Coupon with id `" ++ toString coupon.id ++ "` not found")), db)
  | (Except.ok (some _), db) =>
    let coupon_update : CouponUpdate :=
      { id := coupon.id, code := coupon.code, discount := coupon.discount,
        max_usage_count := coupon.max_usage_count }
    match coupon_repository.update coupon_update db with
    | (Except.error _, db) =>
        (Except.error (CouponError.UnexpectedError "Failed to update"), db)
    | (Except.ok _, db) => (Except.ok (), db)

/-- From src/coupon/coupon_service.rs, delete_by_id: pre-check existence via
get_by_id, then — as the Rust source does — call the repository delete
twice in a row with the same id. -/
def delete_by_id (id : Int) (db : DB) : Except CouponError Unit × DB :=
  match coupon_repository.get_by_id id db with
  | (Except.error _, db) =>
      (Except.error (CouponError.UnexpectedError "Failed to get by id"), db)
  | (Except.ok none, db) =>
      (Except.error (CouponError.NotFoundError
        ("Coupon with id `" ++ toString id ++ "` not found")), db)
  | (Except.ok (some _), db) =>
    match coupon_repository.delete_by_id id db with
    | (Except.error _, db) =>
        (Except.error (CouponError.UnexpectedError "Failed to delete by id"), db)
    | (Except.ok _, db) =>
      match coupon_repository.delete_by_id id db with
      | (Except.error _, db) =>
          (Except.error (CouponError.UnexpectedError "Failed to delete by id"), db)
      | (Except.ok _, db) => (Except.ok (), db)

/-- From src/coupon/coupon_service.rs, delete_by_code: pre-check existence
via get_by_code, then — as the Rust source does — call the repository
delete twice in a row with the same code. -/
def delete_by_code (code : String) (db : DB) : Except CouponError Unit × DB :=
  match coupon_repository.get_by_code code db with
  | (Except.error _, db) =>
      (Except.error (CouponError.UnexpectedError "Failed to get by code"), db)
  | (Except.ok none, db) =>
      (Except.error (CouponError.NotFoundError
        ("Coupon with code `" ++ code ++ "` not found")), db)
  | (Except.ok (some _), db) =>
    match coupon_repository.delete_by_code code db with
    | (Except.error _, db) =>
        (Except.error (CouponError.UnexpectedError "Failed to delete by code"), db)
    | (Except.ok _, db) =>
      match coupon_repository.delete_by_code code db with
      | (Except.error _, db) =>
          (Except.error (CouponError.UnexpectedError "Failed to delete by code"), db)
      | (Except.ok _, db) => (Except.ok (), db)

end coupon_service

/-! Helper lemmas shared by the claim theorems. -/

theorem find?_id_eq_none {t : List CouponRow} {id : Int}
    (h : ∀ r ∈ t, r.id ≠ id) : t.find? (fun r => r.id == id) = none := by
  rw [List.find?_eq_none]
  intro x hx
  simpa using h x hx

theorem find?_code_eq_none {t : List CouponRow} {code : String}
    (h : ∀ r ∈ t, r.code ≠ code) : t.find? (fun r => r.code == code) = none := by
  rw [List.find?_eq_none]
  intro x hx
  simpa using h x hx

/-- Formal statement of claim C1, evaluated at the failing input: after the
existence pre-check succeeds, delete_by_id (and delete_by_code) issue the
repository delete statement twice — the write counter rises by two — which
contradicts the claim that each handler performs a single write; update does
issue exactly one write. -/
theorem delete_issues_two_writes_after_precheck :
    coupon_service.delete_by_id 1
      ⟨[{ id := 1, code := "A", discount := 10, max_usage_count := 5,
          date_created := none }], [], 0⟩ = (Except.ok (), ⟨[], [], 2⟩) ∧
    coupon_service.delete_by_code "A"
      ⟨[{ id := 1, code := "A", discount := 10, max_usage_count := 5,
          date_created := none }], [], 0⟩ = (Except.ok (), ⟨[], [], 2⟩) ∧
    (coupon_service.update
      { id := 1, code := "B", discount := 20, max_usage_count := 3 }
      ⟨[{ id := 1, code := "A", discount := 10, max_usage_count := 5,
          date_created := none }], [], 0⟩).2.writes = 1 := by
  refine ⟨rfl, rfl, rfl⟩

/-- Adds up the converted rows and the dropped rows of a table. -/
theorem length_filterMap_add_length_filter_none (t : List CouponRow) :
    (t.filterMap tryInto).length +
      (t.filter (fun r => (tryInto r).isNone)).length = t.length := by
  induction t with
  | nil => simp
  | cons hd tl ih =>
    cases h : tryInto hd with
    | none => simp [List.filterMap_cons, List.filter_cons, h]; omega
    | some v => simp [List.filterMap_cons, List.filter_cons, h]; omega

/-- Formal statement of claim C3. -/
theorem get_all_returns_convertible_rows (t : List CouponRow) (w : Nat) :
    coupon_service.get_all ⟨t, [], w⟩ =
      (Except.ok (t.filterMap tryInto), ⟨t, [], w⟩) ∧
    (t.filterMap tryInto).length =
      t.length - (t.filter (fun r => (tryInto r).isNone)).length ∧
    ∀ resp : CouponResponse,
      resp ∈ t.filterMap tryInto ↔ ∃ r ∈ t, tryInto r = some resp := by
  refine ⟨?_, ?_, ?_⟩
  · simp [coupon_service.get_all, coupon_repository.get_all, DB.pop]
  · have := length_filterMap_add_length_filter_none t
    omega
  · intro resp
    simp [List.mem_filterMap]

/-- Formal statement of claim C4. -/
theorem update_not_found_leaves_table_unchanged
    (t : List CouponRow) (w : Nat) (u : CouponUpdate)
    (h : ∀ r ∈ t, r.id ≠ u.id) :
    coupon_service.update u ⟨t, [], w⟩ =
      (Except.error (CouponError.NotFoundError
        ("Coupon with id `" ++ toString u.id ++ "` not found")), ⟨t, [], w⟩) := by
  have hf := find?_id_eq_none h
  simp [coupon_service.update, coupon_repository.get_by_id, DB.pop, hf]

theorem update_not_found_leaves_table_unchanged_witness :
    (∀ r ∈ [({ id := 1, code := "A", discount := 10, max_usage_count := 5,
               date_created := none } : CouponRow)], r.id ≠ (2 : Int)) ∧
    coupon_service.update
      { id := 2, code := "B", discount := 20, max_usage_count := 3 }
      ⟨[{ id := 1, code := "A", discount := 10, max_usage_count := 5,
          date_created := none }], [], 0⟩ =
      (Except.error (CouponError.NotFoundError "Coupon with id `2` not found"),
       ⟨[{ id := 1, code := "A", discount := 10, max_usage_count := 5,
           date_created := none }], [], 0⟩) := by
  constructor
  · decide
  · exact update_not_found_leaves_table_unchanged _ 0
      { id := 2, code := "B", discount := 20, max_usage_count := 3 } (by decide)

/-- Formal statement of claim C5. -/
theorem get_by_missing_key_not_found_names_key
    (t : List CouponRow) (w : Nat) (id : Int) (code : String)
    (hid : ∀ r ∈ t, r.id ≠ id) (hcode : ∀ r ∈ t, r.code ≠ code) :
    (coupon_service.get_by_id id ⟨t, [], w⟩).1 =
      Except.error (CouponError.NotFoundError
        ("Coupon with id `" ++ toString id ++ "` not found")) ∧
    (coupon_service.get_by_code code ⟨t, [], w⟩).1 =
      Except.error (CouponError.NotFoundError
        ("Coupon with code `" ++ code ++ "` not found")) ∧
    (coupon_service.get_by_id id ⟨t, [true], w⟩).1 =
      Except.error (CouponError.UnexpectedError "Failed to get by id") ∧
    (coupon_service.get_by_code code ⟨t, [true], w⟩).1 =
      Except.error (CouponError.UnexpectedError "Failed to get by code") ∧
    ∀ m m' : String, CouponError.NotFoundError m ≠ CouponError.UnexpectedError m' := by
  refine ⟨?_, ?_, ?_, ?_, ?_⟩
  · simp [coupon_service.get_by_id, coupon_repository.get_by_id, DB.pop,
          find?_id_eq_none hid]
  · simp [coupon_service.get_by_code, coupon_repository.get_by_code, DB.pop,
          find?_code_eq_none hcode]
  · simp [coupon_service.get_by_id, coupon_repository.get_by_id, DB.pop]
  · simp [coupon_service.get_by_code, coupon_repository.get_by_code, DB.pop]
  · intro m m' hmm
    exact CouponError.noConfusion hmm

theorem get_by_missing_key_not_found_names_key_witness :
    (∀ r ∈ ([] : List CouponRow), r.id ≠ (7 : Int)) ∧
    (∀ r ∈ ([] : List CouponRow), r.code ≠ "X") ∧
    (coupon_service.get_by_id 7 ⟨[], [], 0⟩).1 =
      Except.error (CouponError.NotFoundError "Coupon with id `7` not found") := by
  refine ⟨by decide, by decide, ?_⟩
  exact (get_by_missing_key_not_found_names_key [] 0 7 "X"
    (by decide) (by decide)).1

theorem le_foldr_max {l : List Int} {x : Int} (hx : x ∈ l) :
    x ≤ l.foldr max 0 := by
  induction l with
  | nil => cases hx
  | cons hd tl ih =>
    rcases List.mem_cons.mp hx with h | h
    · subst h; exact le_max_left _ _
    · exact le_trans (ih h) (le_max_right _ _)

theorem id_lt_freshId {t : List CouponRow} {r : CouponRow} (hr : r ∈ t) :
    r.id < coupon_repository.freshId t := by
  have h := le_foldr_max (List.mem_map_of_mem (fun r => r.id) hr)
  simp only at h
  unfold coupon_repository.freshId
  omega

theorem find?_append_of_forall_false {t t' : List CouponRow}
    {p : CouponRow → Bool} (h : ∀ r ∈ t, p r = false) :
    (t ++ t').find? p = t'.find? p := by
  rw [List.find?_append]
  have hnone : t.find? p = none := by
    rw [List.find?_eq_none]
    intro x hx
    simp [h x hx]
  simp [hnone]

theorem find?_fresh_append (t : List CouponRow) (row : CouponRow)
    (hrow : row.id = coupon_repository.freshId t) :
    (t ++ [row]).find? (fun r => r.id == coupon_repository.freshId t) = some row := by
  rw [find?_append_of_forall_false]
  · simp [List.find?, hrow]
  · intro r hr
    have h := id_lt_freshId hr
    simp only [beq_eq_false_iff_ne, ne_eq]
    omega

/-- Formal statement of claim C2. -/
theorem insert_returns_request_fields_and_fresh_unique_id
    (t : List CouponRow) (w : Nat) (req : CouponRequest)
    (h : discountRepresentable req.discount = true) :
    coupon_service.insert req ⟨t, [], w⟩ =
      (Except.ok { id := coupon_repository.freshId t, code := req.code,
                   discount := req.discount,
                   max_usage_count := req.max_usage_count, date_created := none },
       ⟨t ++ [{ id := coupon_repository.freshId t, code := req.code,
                discount := req.discount,
                max_usage_count := req.max_usage_count, date_created := none }],
        [], w + 1⟩) ∧
    ∀ r ∈ t, r.id ≠ coupon_repository.freshId t := by
  constructor
  · have hfind := find?_fresh_append t
      { id := coupon_repository.freshId t, code := req.code, discount := req.discount,
        max_usage_count := req.max_usage_count, date_created := none } rfl
    simp [coupon_service.insert, coupon_repository.insert,
          coupon_repository.get_by_id, DB.pop, hfind, tryInto, h]
  · intro r hr
    have h := id_lt_freshId hr
    omega

theorem insert_returns_request_fields_witness :
    discountRepresentable 10 = true ∧
    coupon_service.insert { code := "SAVE10", discount := 10, max_usage_count := 5 }
        ⟨[], [], 0⟩ =
      (Except.ok { id := 1, code := "SAVE10", discount := 10, max_usage_count := 5,
                   date_created := none },
       ⟨[{ id := 1, code := "SAVE10", discount := 10, max_usage_count := 5,
           date_created := none }], [], 1⟩) := by
  constructor
  · decide
  · simpa using (insert_returns_request_fields_and_fresh_unique_id [] 0
      { code := "SAVE10", discount := 10, max_usage_count := 5 } (by decide)).1

theorem service_delete_by_id_ok (t : List CouponRow) (w : Nat) (id : Int)
    (r : CouponRow) (hr : t.find? (fun x => x.id == id) = some r) :
    coupon_service.delete_by_id id ⟨t, [], w⟩ =
      (Except.ok (), ⟨t.filter (fun x => !(x.id == id)), [], w + 1 + 1⟩) := by
  have hfilter : (t.filter (fun x => !(x.id == id))).filter (fun x => !(x.id == id))
      = t.filter (fun x => !(x.id == id)) := by
    rw [List.filter_eq_self]
    intro a ha
    exact (List.mem_filter.mp ha).2
  simp [coupon_service.delete_by_id, coupon_repository.get_by_id,
        coupon_repository.delete_by_id, DB.pop, hr, hfilter]

theorem service_delete_by_code_ok (t : List CouponRow) (w : Nat) (code : String)
    (r : CouponRow) (hr : t.find? (fun x => x.code == code) = some r) :
    coupon_service.delete_by_code code ⟨t, [], w⟩ =
      (Except.ok (), ⟨t.filter (fun x => !(x.code == code)), [], w + 1 + 1⟩) := by
  have hfilter : (t.filter (fun x => !(x.code == code))).filter (fun x => !(x.code == code))
      = t.filter (fun x => !(x.code == code)) := by
    rw [List.filter_eq_self]
    intro a ha
    exact (List.mem_filter.mp ha).2
  simp [coupon_service.delete_by_code, coupon_repository.get_by_code,
        coupon_repository.delete_by_code, DB.pop, hr, hfilter]

theorem find?_id_filter_ne_none (t : List CouponRow) (id : Int) :
    (t.filter (fun x => !(x.id == id))).find? (fun x => x.id == id) = none := by
  rw [List.find?_eq_none]
  intro x hx
  have h := (List.mem_filter.mp hx).2
  simp only [Bool.not_eq_true', beq_eq_false_iff_ne, ne_eq] at h
  simp [h]

theorem find?_code_filter_ne_none (t : List CouponRow) (code : String) :
    (t.filter (fun x => !(x.code == code))).find? (fun x => x.code == code) = none := by
  rw [List.find?_eq_none]
  intro x hx
  have h := (List.mem_filter.mp hx).2
  simp only [Bool.not_eq_true', beq_eq_false_iff_ne, ne_eq] at h
  simp [h]

theorem service_get_by_id_miss (t : List CouponRow) (w : Nat) (id : Int)
    (h : t.find? (fun r => r.id == id) = none) :
    (coupon_service.get_by_id id ⟨t, [], w⟩).1 =
      Except.error (CouponError.NotFoundError
        ("Coupon with id `" ++ toString id ++ "` not found")) := by
  simp [coupon_service.get_by_id, coupon_repository.get_by_id, DB.pop, h]

theorem service_get_by_code_miss (t : List CouponRow) (w : Nat) (code : String)
    (h : t.find? (fun r => r.code == code) = none) :
    (coupon_service.get_by_code code ⟨t, [], w⟩).1 =
      Except.error (CouponError.NotFoundError
        ("Coupon with code `" ++ code ++ "` not found")) := by
  simp [coupon_service.get_by_code, coupon_repository.get_by_code, DB.pop, h]

/-- Formal statement of claim C6. -/
theorem delete_then_get_yields_not_found
    (t : List CouponRow) (w : Nat) (id : Int) (code : String)
    (hid : (t.find? (fun r => r.id == id)).isSome = true)
    (hcode : (t.find? (fun r => r.code == code)).isSome = true) :
    (coupon_service.delete_by_id id ⟨t, [], w⟩).1 = Except.ok () ∧
    (coupon_service.get_by_id id
        (coupon_service.delete_by_id id ⟨t, [], w⟩).2).1 =
      Except.error (CouponError.NotFoundError
        ("Coupon with id `" ++ toString id ++ "` not found")) ∧
    (coupon_service.delete_by_code code ⟨t, [], w⟩).1 = Except.ok () ∧
    (coupon_service.get_by_code code
        (coupon_service.delete_by_code code ⟨t, [], w⟩).2).1 =
      Except.error (CouponError.NotFoundError
        ("Coupon with code `" ++ code ++ "` not found")) := by
  obtain ⟨r, hr⟩ := Option.isSome_iff_exists.mp hid
  obtain ⟨r', hr'⟩ := Option.isSome_iff_exists.mp hcode
  have hdel := service_delete_by_id_ok t w id r hr
  have hdel' := service_delete_by_code_ok t w code r' hr'
  refine ⟨by rw [hdel], ?_, by rw [hdel'], ?_⟩
  · rw [hdel]
    exact service_get_by_id_miss _ _ _ (find?_id_filter_ne_none t id)
  · rw [hdel']
    exact service_get_by_code_miss _ _ _ (find?_code_filter_ne_none t code)

theorem delete_then_get_yields_not_found_witness :
    (([({ id := 1, code := "A", discount := 10, max_usage_count := 5,
          date_created := none } : CouponRow)].find?
        (fun r => r.id == (1 : Int))).isSome = true) ∧
    (coupon_service.get_by_id 1
        (coupon_service.delete_by_id 1
          ⟨[{ id := 1, code := "A", discount := 10, max_usage_count := 5,
              date_created := none }], [], 0⟩).2).1 =
      Except.error (CouponError.NotFoundError "Coupon with id `1` not found") := by
  constructor
  · decide
  · simpa using (delete_then_get_yields_not_found
      [{ id := 1, code := "A", discount := 10, max_usage_count := 5,
         date_created := none }] 0 1 "A" (by decide) (by decide)).2.1

/-- Formal statement of claim C8. -/
theorem get_by_id_and_get_by_code_agree
    (t : List CouponRow) (w : Nat) (id : Int) (code : String) (r : CouponRow)
    (h1 : t.find? (fun x => x.id == id) = some r)
    (h2 : t.find? (fun x => x.code == code) = some r) :
    (coupon_service.get_by_id id ⟨t, [], w⟩).1 =
      (coupon_service.get_by_code code ⟨t, [], w⟩).1 := by
  cases htry : tryInto r <;>
    simp [coupon_service.get_by_id, coupon_service.get_by_code,
          coupon_repository.get_by_id, coupon_repository.get_by_code,
          DB.pop, h1, h2, htry]

theorem get_by_id_and_get_by_code_agree_witness :
    ([({ id := 1, code := "A", discount := 10, max_usage_count := 5,
         date_created := none } : CouponRow)].find? (fun x => x.id == (1 : Int)) =
      some { id := 1, code := "A", discount := 10, max_usage_count := 5,
             date_created := none }) ∧
    (coupon_service.get_by_id 1
        ⟨[{ id := 1, code := "A", discount := 10, max_usage_count := 5,
            date_created := none }], [], 0⟩).1 =
      (coupon_service.get_by_code "A"
        ⟨[{ id := 1, code := "A", discount := 10, max_usage_count := 5,
            date_created := none }], [], 0⟩).1 := by
  constructor
  · decide
  · exact get_by_id_and_get_by_code_agree
      [{ id := 1, code := "A", discount := 10, max_usage_count := 5,
         date_created := none }] 0 1 "A"
      { id := 1, code := "A", discount := 10, max_usage_count := 5,
        date_created := none } (by decide) (by decide)

/-- Formal statement of claim C9. -/
theorem double_delete_refines_single_delete
    (t : List CouponRow) (w : Nat) (id : Int) (code : String)
    (hid : (t.find? (fun r => r.id == id)).isSome = true)
    (hcode : (t.find? (fun r => r.code == code)).isSome = true) :
    coupon_service.delete_by_id id ⟨t, [], w⟩ =
      (Except.ok (),
       ⟨(coupon_repository.delete_by_id id ⟨t, [], w⟩).2.table, [], w + 1 + 1⟩) ∧
    ((coupon_repository.delete_by_id id ⟨t, [], w⟩).2.table.filter
        (fun r => r.id == id)) = [] ∧
    coupon_service.delete_by_code code ⟨t, [], w⟩ =
      (Except.ok (),
       ⟨(coupon_repository.delete_by_code code ⟨t, [], w⟩).2.table, [], w + 1 + 1⟩) ∧
    ((coupon_repository.delete_by_code code ⟨t, [], w⟩).2.table.filter
        (fun r => r.code == code)) = [] := by
  obtain ⟨r0, hr0⟩ := Option.isSome_iff_exists.mp hid
  obtain ⟨r1, hr1⟩ := Option.isSome_iff_exists.mp hcode
  have h1 : (coupon_repository.delete_by_id id ⟨t, [], w⟩).2.table
      = t.filter (fun x => !(x.id == id)) := rfl
  have h2 : (coupon_repository.delete_by_code code ⟨t, [], w⟩).2.table
      = t.filter (fun x => !(x.code == code)) := rfl
  refine ⟨?_, ?_, ?_, ?_⟩
  · rw [h1]; exact service_delete_by_id_ok t w id r0 hr0
  · rw [h1, List.filter_eq_nil_iff]
    intro a ha
    have h := (List.mem_filter.mp ha).2
    simpa using h
  · rw [h2]; exact service_delete_by_code_ok t w code r1 hr1
  · rw [h2, List.filter_eq_nil_iff]
    intro a ha
    have h := (List.mem_filter.mp ha).2
    simpa using h

theorem double_delete_refines_single_delete_witness :
    (([({ id := 1, code := "A", discount := 10, max_usage_count := 5,
          date_created := none } : CouponRow)].find?
        (fun r => r.id == (1 : Int))).isSome = true) ∧
    coupon_service.delete_by_id 1
        ⟨[{ id := 1, code := "A", discount := 10, max_usage_count := 5,
            date_created := none }], [], 0⟩ =
      (Except.ok (),
       ⟨(coupon_repository.delete_by_id 1
          ⟨[{ id := 1, code := "A", discount := 10, max_usage_count := 5,
              date_created := none }], [], 0⟩).2.table, [], 0 + 1 + 1⟩) := by
  constructor
  · decide
  · exact (double_delete_refines_single_delete
      [{ id := 1, code := "A", discount := 10, max_usage_count := 5,
         date_created := none }] 0 1 "A" (by decide) (by decide)).1

/-- Formal statement of claim C10. -/
theorem delete_removes_only_matching_rows
    (t : List CouponRow) (w : Nat) (id : Int) (code : String)
    (hid : (t.find? (fun r => r.id == id)).isSome = true)
    (hcode : (t.find? (fun r => r.code == code)).isSome = true) :
    (∀ r ∈ t, r.id ≠ id →
        r ∈ (coupon_service.delete_by_id id ⟨t, [], w⟩).2.table) ∧
    (∀ r ∈ (coupon_service.delete_by_id id ⟨t, [], w⟩).2.table,
        r ∈ t ∧ r.id ≠ id) ∧
    (∀ r ∈ t, r.code ≠ code →
        r ∈ (coupon_service.delete_by_code code ⟨t, [], w⟩).2.table) ∧
    (∀ r ∈ (coupon_service.delete_by_code code ⟨t, [], w⟩).2.table,
        r ∈ t ∧ r.code ≠ code) := by
  obtain ⟨r0, hr0⟩ := Option.isSome_iff_exists.mp hid
  obtain ⟨r1, hr1⟩ := Option.isSome_iff_exists.mp hcode
  rw [service_delete_by_id_ok t w id r0 hr0,
      service_delete_by_code_ok t w code r1 hr1]
  refine ⟨?_, ?_, ?_, ?_⟩ <;> simp [List.mem_filter] <;> tauto

theorem delete_removes_only_matching_rows_witness :
    (([({ id := 1, code := "A", discount := 10, max_usage_count := 5,
          date_created := none } : CouponRow),
       { id := 2, code := "B", discount := 20, max_usage_count := 3,
         date_created := none }].find?
        (fun r => r.id == (1 : Int))).isSome = true) ∧
    ({ id := 2, code := "B", discount := 20, max_usage_count := 3,
       date_created := none } : CouponRow) ∈
      (coupon_service.delete_by_id 1
        ⟨[{ id := 1, code := "A", discount := 10, max_usage_count := 5,
            date_created := none },
          { id := 2, code := "B", discount := 20, max_usage_count := 3,
            date_created := none }], [], 0⟩).2.table := by
  constructor
  · decide
  · exact (delete_removes_only_matching_rows
      [{ id := 1, code := "A", discount := 10, max_usage_count := 5,
         date_created := none },
       { id := 2, code := "B", discount := 20, max_usage_count := 3,
         date_created := none }] 0 1 "A" (by decide) (by decide)).1
      { id := 2, code := "B", discount := 20, max_usage_count := 3,
        date_created := none } (by decide) (by decide)

theorem service_insert_never_not_found (t : List CouponRow) (w : Nat)
    (req : CouponRequest) (fs : List Bool) (m : String) :
    (coupon_service.insert req ⟨t, fs, w⟩).1 ≠
      Except.error (CouponError.NotFoundError m) := by
  have hfind := find?_fresh_append t
    { id := coupon_repository.freshId t, code := req.code, discount := req.discount,
      max_usage_count := req.max_usage_count, date_created := none } rfl
  rcases fs with _ | ⟨f1, fs⟩
  · cases htry : tryInto ⟨coupon_repository.freshId t, req.code, req.discount, req.max_usage_count, none⟩ <;>
      simp [coupon_service.insert, coupon_repository.insert,
            coupon_repository.get_by_id, DB.pop, hfind, htry]
  · cases f1
    · rcases fs with _ | ⟨f2, fs⟩
      · cases htry : tryInto ⟨coupon_repository.freshId t, req.code, req.discount, req.max_usage_count, none⟩ <;>
          simp [coupon_service.insert, coupon_repository.insert,
                coupon_repository.get_by_id, DB.pop, hfind, htry]
      · cases f2
        · cases htry : tryInto ⟨coupon_repository.freshId t, req.code, req.discount, req.max_usage_count, none⟩ <;>
            simp [coupon_service.insert, coupon_repository.insert,
                  coupon_repository.get_by_id, DB.pop, hfind, htry]
        · simp [coupon_service.insert, coupon_repository.insert,
                coupon_repository.get_by_id, DB.pop]
    · simp [coupon_service.insert, coupon_repository.insert, DB.pop]

theorem repo_refetch_never_misses (t : List CouponRow) (w : Nat)
    (c : CouponInsert) (fs : List Bool) :
    ¬ ((coupon_repository.insert c ⟨t, fs, w⟩).1 =
          Except.ok (coupon_repository.freshId t) ∧
       (coupon_repository.get_by_id (coupon_repository.freshId t)
          (coupon_repository.insert c ⟨t, fs, w⟩).2).1 = Except.ok none) := by
  have hfind := find?_fresh_append t
    { id := coupon_repository.freshId t, code := c.code, discount := c.discount,
      max_usage_count := c.max_usage_count, date_created := c.date_created } rfl
  rcases fs with _ | ⟨f1, fs⟩
  · simp [coupon_repository.insert, coupon_repository.get_by_id, DB.pop, hfind]
  · cases f1
    · rcases fs with _ | ⟨f2, fs⟩
      · simp [coupon_repository.insert, coupon_repository.get_by_id, DB.pop, hfind]
      · cases f2
        · simp [coupon_repository.insert, coupon_repository.get_by_id, DB.pop, hfind]
        · simp [coupon_repository.insert, coupon_repository.get_by_id, DB.pop]
    · simp [coupon_repository.insert, DB.pop]

/-- Formal statement of claim C7. -/
theorem insert_error_modes (t : List CouponRow) (w : Nat) (req : CouponRequest) :
    (coupon_service.insert req ⟨t, [true], w⟩).1 =
      Except.error (CouponError.UnexpectedError "Failed to insert") ∧
    (coupon_service.insert req ⟨t, [false, true], w⟩).1 =
      Except.error (CouponError.UnexpectedError "Failed to get by id") ∧
    ∀ fs : List Bool, ∀ m : String,
      ((coupon_service.insert req ⟨t, fs, w⟩).1 =
          Except.error (CouponError.NotFoundError m) ↔
        ((coupon_repository.insert
            { code := req.code, discount := req.discount,
              max_usage_count := req.max_usage_count, date_created := none }
            ⟨t, fs, w⟩).1 = Except.ok (coupon_repository.freshId t) ∧
         (coupon_repository.get_by_id (coupon_repository.freshId t)
            (coupon_repository.insert
              { code := req.code, discount := req.discount,
                max_usage_count := req.max_usage_count, date_created := none }
              ⟨t, fs, w⟩).2).1 = Except.ok none)) := by
  refine ⟨?_, ?_, ?_⟩
  · simp [coupon_service.insert, coupon_repository.insert, DB.pop]
  · simp [coupon_service.insert, coupon_repository.insert,
          coupon_repository.get_by_id, DB.pop]
  · intro fs m
    exact iff_of_false (service_insert_never_not_found t w req fs m)
      (repo_refetch_never_misses t w _ fs)

end CouponApi
